import Mathlib

/-!
# Verification of `lista_size.c` (Universidad-UNIPRO, Sistemas Operativos Avanzados)

A shallow embedding of the single C program `lista_size.c`, which enumerates
the entries of the current directory via `FindFirstFileA` / `FindNextFileA`
and writes one line `"<name>\t<size>\r\n"` per non-directory entry into the
fixed output file `C:\tmp\lista_sz`, after ensuring `C:\tmp` exists and
creating/truncating the output file with `CREATE_ALWAYS`.

The host OS is modelled as an oracle (`Env`) fixing the outcome of every
API call the program makes: the `CreateDirectoryA` outcome, the
`CreateFileA` outcome, the sequence of directory entries yielded by the
find API together with the `GetLastError` code observed when
`FindNextFileA` finally returns 0, and the outcome of each `WriteFile`
call (indexed by call number and requested byte count).  Bytes are
modelled as characters (all names in scope are single-byte text, so
`String.length` coincides with the C byte count).  `GetLastError` is
modelled as set by the failing API call and left unchanged by successful
calls and by `fprintf`.

`runMain` is the direct translation of `main`: it returns the process
exit code, whether the output file was created (truncated), the bytes
written to it, the sequence of `fprintf(stderr, ...)` messages, whether
the final success `printf` ran, and per-handle open/close counts for the
two handles (`hFile`, `hFind`).
-/

/-- `ERROR_ALREADY_EXISTS`, the Windows error code tolerated after
`CreateDirectoryA` fails (line 33 of the source). -/
def ERROR_ALREADY_EXISTS : Nat := 183

/-- `ERROR_NO_MORE_FILES`, the end-of-enumeration signal checked after the
loop (line 103 of the source). -/
def ERROR_NO_MORE_FILES : Nat := 18

/-- `FILE_ATTRIBUTE_DIRECTORY` (0x10). -/
def FILE_ATTRIBUTE_DIRECTORY : Nat := 16

/-- `BUFFER_SIZE`, the size of the `snprintf` formatting buffer. -/
def BUFFER_SIZE : Nat := 512

/-- `OUTPUT_FILE`, the fixed output path. -/
def OUTPUT_FILE : String := "C:\\tmp\\lista_sz"

/-- One `WIN32_FIND_DATAA` record as the program reads it: the entry name
`cFileName`, the attribute word `dwFileAttributes`, and the two 32-bit
halves of the file size.  The attribute and size fields are `DWORD`s, so
OS-produced values are below `2 ^ 32`. -/
structure FindData where
  cFileName : String
  dwFileAttributes : Nat
  nFileSizeHigh : Nat
  nFileSizeLow : Nat
  deriving DecidableEq

/-- The directory test of line 69: `dwFileAttributes & FILE_ATTRIBUTE_DIRECTORY`
is nonzero. -/
def isDirB (fd : FindData) : Bool :=
  fd.dwFileAttributes &&& FILE_ATTRIBUTE_DIRECTORY != 0

/-- The 64-bit size of line 74:
`((ULONGLONG)nFileSizeHigh << 32) | nFileSizeLow`. -/
def fileSize (fd : FindData) : Nat :=
  (fd.nFileSizeHigh <<< 32) ||| fd.nFileSizeLow

/-- The full text `snprintf(buffer, BUFFER_SIZE, "%s\t%llu\r\n", name, size)`
would produce (line 77); `%llu` renders the size in unsigned decimal. -/
def formatLine (name : String) (size : Nat) : String :=
  name ++ "\t" ++ toString size ++ "\r\n"

/-- First `n` bytes of a string, modelling a partial `WriteFile` that
reports only `n` of the requested bytes written. -/
def takeBytes (s : String) (n : Nat) : String :=
  String.mk (s.data.take n)

/-- Outcome of the `CreateDirectoryA("C:\\tmp", NULL)` call: success, or
failure with a `GetLastError` code. -/
inductive MkdirResult where
  | ok
  | err (code : Nat)
  deriving DecidableEq

/-- `CreateDirectoryA` failed with a code other than `ERROR_ALREADY_EXISTS`
(the fatal case of lines 31-37). -/
def mkdirFatalB : MkdirResult → Bool
  | MkdirResult.ok => false
  | MkdirResult.err c => c != ERROR_ALREADY_EXISTS

/-- Outcome of one `WriteFile` call: OS-level failure with a `GetLastError`
code, or success reporting `written` bytes written. -/
inductive WriteResult where
  | err (code : Nat)
  | ok (written : Nat)
  deriving DecidableEq

/-- Outcome of `FindFirstFileA("*", &findFileData)` together with the rest
of the enumeration: failure with a `GetLastError` code, or the first entry
plus the entries later yielded by successful `FindNextFileA` calls. -/
inductive FindFirstResult where
  | err (code : Nat)
  | ok (first : FindData) (rest : List FindData)

/-- The list of entries the enumeration yields. -/
def entriesOf : FindFirstResult → List FindData
  | FindFirstResult.err _ => []
  | FindFirstResult.ok f r => f :: r

/-- `FindFirstFileA` returned `INVALID_HANDLE_VALUE`. -/
def findFailed : FindFirstResult → Bool
  | FindFirstResult.err _ => true
  | FindFirstResult.ok _ _ => false

/-- The OS oracle for one run: outcomes of every API call the program can
make.  `postCode` is the `GetLastError` value observed once `FindNextFileA`
returns 0 (`ERROR_NO_MORE_FILES` on a normal end of enumeration, another
code if the enumeration itself failed mid-way).  `writeResults k req` is
the outcome of the `k`-th `WriteFile` call when `req` bytes are
requested. -/
structure Env where
  mkdir : MkdirResult
  createFile : Option Nat
  findFirst : FindFirstResult
  postCode : Nat
  writeResults : Nat → Nat → WriteResult

/-- The `fprintf(stderr, ...)` messages of the program, tagged with the
data each one interpolates. -/
inductive ErrMsg where
  | mkdirErr (code : Nat)
  | createFileErr (path : String) (code : Nat)
  | findFirstErr (code : Nat)
  | formatErr (name : String)
  | writeErr (code : Nat)
  | shortWriteWarn (name : String)
  | enumErr (code : Nat)
  deriving DecidableEq

/-- Result of the `do ... while (FindNextFileA(...))` loop of lines 67-99:
the bytes appended to the output file, the stderr messages issued, `brk =
some c` when the loop exited through the `break` of line 91 after a
`WriteFile` failure with code `c` (`none` when it ran to the end of the
entry list), and `wn`, the number of `WriteFile` calls made. -/
structure LoopOut where
  out : String
  errs : List ErrMsg
  brk : Option Nat
  wn : Nat
  deriving DecidableEq

/-- The loop body of lines 67-99, one entry at a time: skip directories
(line 69), format the line and skip the entry when the text would not fit
the 512-byte buffer (lines 77-84), otherwise call `WriteFile` — an OS
failure breaks out of the loop (lines 87-92), a success appends the bytes
reported written and warns when that count differs from the requested one
(lines 94-97). -/
def runLoop (wr : Nat → Nat → WriteResult) : List FindData → Nat → LoopOut
  | [], _ => ⟨"", [], none, 0⟩
  | fd :: rest, k =>
    if isDirB fd then
      runLoop wr rest k
    else
      let line := formatLine fd.cFileName (fileSize fd)
      if BUFFER_SIZE ≤ line.length then
        let t := runLoop wr rest k
        ⟨t.out, ErrMsg.formatErr fd.cFileName :: t.errs, t.brk, t.wn⟩
      else
        match wr k line.length with
        | WriteResult.err c => ⟨"", [ErrMsg.writeErr c], some c, 1⟩
        | WriteResult.ok n =>
          let warn := if n ≠ line.length then [ErrMsg.shortWriteWarn fd.cFileName] else []
          let t := runLoop wr rest (k + 1)
          ⟨takeBytes line n ++ t.out, warn ++ t.errs, t.brk, t.wn + 1⟩

/-- Observable result of one run of `main`: the process exit status,
whether `CreateFileA` succeeded (so the output file was created or
truncated), the bytes this run wrote to it, the stderr messages in order,
whether the success `printf` of line 118 (which names `OUTPUT_FILE`) ran,
whether the find handle was acquired, and how many times each of
`CloseHandle(hFile)` and `FindClose(hFind)` were called. -/
structure RunResult where
  exitCode : Nat
  created : Bool
  output : String
  stderr : List ErrMsg
  successMsg : Bool
  findOpened : Bool
  fileCloses : Nat
  findCloses : Nat
  deriving DecidableEq

/-- `main` from the point after the `CreateDirectoryA` block: open the
output file (lines 40-54), start the enumeration (lines 57-64, closing
`hFile` and returning 1 on failure), run the loop, re-check
`GetLastError` against `ERROR_NO_MORE_FILES` (lines 101-106 — after a
write-failure `break` the last error is the write error code), close both
handles (lines 108-115) and print the success line when `result` is still
0 (lines 117-119). -/
def runAfterMkdir (env : Env) : RunResult :=
  match env.createFile with
  | some c =>
    { exitCode := 1, created := false, output := "",
      stderr := [ErrMsg.createFileErr OUTPUT_FILE c], successMsg := false,
      findOpened := false, fileCloses := 0, findCloses := 0 }
  | none =>
    match env.findFirst with
    | FindFirstResult.err c =>
      { exitCode := 1, created := true, output := "",
        stderr := [ErrMsg.findFirstErr c], successMsg := false,
        findOpened := false, fileCloses := 1, findCloses := 0 }
    | FindFirstResult.ok f r =>
      let t := runLoop env.writeResults (f :: r) 0
      let result : Nat := match t.brk with | some _ => 1 | none => 0
      let dwError : Nat := match t.brk with | some c => c | none => env.postCode
      let enumFail : Bool := dwError != ERROR_NO_MORE_FILES
      let result2 : Nat := if enumFail then 1 else result
      let errs2 : List ErrMsg :=
        if enumFail then t.errs ++ [ErrMsg.enumErr dwError] else t.errs
      { exitCode := result2, created := true, output := t.out,
        stderr := errs2, successMsg := result2 == 0,
        findOpened := true, fileCloses := 1, findCloses := 1 }

/-- The whole of `main`: the `CreateDirectoryA` block of lines 31-37
(failure with a code other than `ERROR_ALREADY_EXISTS` returns 1 before
the output file is touched), then `runAfterMkdir`. -/
def runMain (env : Env) : RunResult :=
  match env.mkdir with
  | MkdirResult.err c =>
    if c ≠ ERROR_ALREADY_EXISTS then
      { exitCode := 1, created := false, output := "",
        stderr := [ErrMsg.mkdirErr c], successMsg := false,
        findOpened := false, fileCloses := 0, findCloses := 0 }
    else
      runAfterMkdir env
  | MkdirResult.ok => runAfterMkdir env

/-- Content of the path `OUTPUT_FILE` after a run, given its prior
content (`none` = no file): `CREATE_ALWAYS` replaces the content wholesale
whenever `CreateFileA` succeeds, and a run that never reaches a successful
`CreateFileA` leaves the path untouched. -/
def fileAfterRun (prior : Option String) (env : Env) : Option String :=
  if (runMain env).created then some (runMain env).output else prior

/-- Spec-side description of the output file content (the refinement
target, following the spec's words in sections 3, 6 and 8): one line
`"<name>\t<size>\r\n"` per non-directory entry, in enumeration order;
directory entries contribute nothing. -/
def specOutput : List FindData → String
  | [] => ""
  | fd :: rest =>
    if isDirB fd then specOutput rest
    else formatLine fd.cFileName (fileSize fd) ++ specOutput rest

/-- The code carried by the `break` of line 91, when a `WriteFile` failure
stopped the loop. -/
def loopBrk (env : Env) : Option Nat :=
  match env.findFirst with
  | FindFirstResult.err _ => none
  | FindFirstResult.ok f r => (runLoop env.writeResults (f :: r) 0).brk

/-- The `GetLastError` value read at line 102, just after the loop: the
write error code when the loop broke, the enumeration-end code
otherwise. -/
def postErrorCode (env : Env) : Nat :=
  match loopBrk env with
  | some c => c
  | none => env.postCode

/-- The fatal conditions of a run, as the spec's error taxonomy lists
them: directory-preparation failure, output-file creation failure,
enumeration-start failure, a hard write failure, or a post-enumeration
error code other than the no-more-entries signal. -/
def FatalCondition (env : Env) : Prop :=
  mkdirFatalB env.mkdir = true ∨ env.createFile.isSome = true ∨
    findFailed env.findFirst = true ∨ loopBrk env ≠ none ∨
    postErrorCode env ≠ ERROR_NO_MORE_FILES

theorem runLoop_nil (wr : Nat → Nat → WriteResult) (k : Nat) :
    runLoop wr [] k = ⟨"", [], none, 0⟩ := rfl

theorem runLoop_cons_dir (wr : Nat → Nat → WriteResult) (fd : FindData)
    (rest : List FindData) (k : Nat) (h : isDirB fd = true) :
    runLoop wr (fd :: rest) k = runLoop wr rest k := by
  simp [runLoop, h]

theorem runLoop_cons_big (wr : Nat → Nat → WriteResult) (fd : FindData)
    (rest : List FindData) (k : Nat) (h : isDirB fd = false)
    (hbig : BUFFER_SIZE ≤ (formatLine fd.cFileName (fileSize fd)).length) :
    runLoop wr (fd :: rest) k =
      ⟨(runLoop wr rest k).out,
       ErrMsg.formatErr fd.cFileName :: (runLoop wr rest k).errs,
       (runLoop wr rest k).brk, (runLoop wr rest k).wn⟩ := by
  simp [runLoop, h, hbig]

theorem runLoop_cons_err (wr : Nat → Nat → WriteResult) (fd : FindData)
    (rest : List FindData) (k c : Nat) (h : isDirB fd = false)
    (hfit : (formatLine fd.cFileName (fileSize fd)).length < BUFFER_SIZE)
    (hw : wr k (formatLine fd.cFileName (fileSize fd)).length = WriteResult.err c) :
    runLoop wr (fd :: rest) k = ⟨"", [ErrMsg.writeErr c], some c, 1⟩ := by
  simp [runLoop, h, Nat.not_le.mpr hfit, hw]

theorem runLoop_cons_ok (wr : Nat → Nat → WriteResult) (fd : FindData)
    (rest : List FindData) (k n : Nat) (h : isDirB fd = false)
    (hfit : (formatLine fd.cFileName (fileSize fd)).length < BUFFER_SIZE)
    (hw : wr k (formatLine fd.cFileName (fileSize fd)).length = WriteResult.ok n) :
    runLoop wr (fd :: rest) k =
      ⟨takeBytes (formatLine fd.cFileName (fileSize fd)) n ++ (runLoop wr rest (k + 1)).out,
       (if n ≠ (formatLine fd.cFileName (fileSize fd)).length
         then [ErrMsg.shortWriteWarn fd.cFileName] else []) ++ (runLoop wr rest (k + 1)).errs,
       (runLoop wr rest (k + 1)).brk, (runLoop wr rest (k + 1)).wn + 1⟩ := by
  simp [runLoop, h, Nat.not_le.mpr hfit, hw]

theorem runMain_eq_after (env : Env) (hmk : mkdirFatalB env.mkdir = false) :
    runMain env = runAfterMkdir env := by
  cases hm : env.mkdir with
  | ok => simp [runMain, hm]
  | err c =>
    have : c = ERROR_ALREADY_EXISTS := by
      have := hmk
      rw [hm] at this
      simpa [mkdirFatalB] using this
    simp [runMain, hm, this]

theorem runLoop_filter (wr : Nat → Nat → WriteResult) (l : List FindData) (k : Nat) :
    runLoop wr l k = runLoop wr (l.filter (fun fd => !isDirB fd)) k := by
  induction l generalizing k with
  | nil => rfl
  | cons fd rest ih =>
    cases h : isDirB fd with
    | true =>
      have hf : List.filter (fun fd => !isDirB fd) (fd :: rest) =
          List.filter (fun fd => !isDirB fd) rest := by
        simp [List.filter_cons, h]
      rw [runLoop_cons_dir wr fd rest k h, hf]
      exact ih k
    | false =>
      have hf : List.filter (fun fd => !isDirB fd) (fd :: rest) =
          fd :: List.filter (fun fd => !isDirB fd) rest := by
        simp [List.filter_cons, h]
      rw [hf]
      by_cases hbig : BUFFER_SIZE ≤ (formatLine fd.cFileName (fileSize fd)).length
      · rw [runLoop_cons_big wr fd rest k h hbig,
          runLoop_cons_big wr fd _ k h hbig, ih k]
      · have hfit := Nat.not_le.mp hbig
        cases hw : wr k (formatLine fd.cFileName (fileSize fd)).length with
        | err c =>
          rw [runLoop_cons_err wr fd rest k c h hfit hw,
            runLoop_cons_err wr fd _ k c h hfit hw]
        | ok n =>
          rw [runLoop_cons_ok wr fd rest k n h hfit hw,
            runLoop_cons_ok wr fd _ k n h hfit hw, ih (k + 1)]

/-- Sample non-directory entry: `a.txt`, 5 bytes. -/
def fdA : FindData := ⟨"a.txt", 0, 0, 5⟩

/-- The `.` pseudo-entry, directory-flagged. -/
def fdDot : FindData := ⟨".", FILE_ATTRIBUTE_DIRECTORY, 0, 0⟩

/-- The `..` pseudo-entry, directory-flagged. -/
def fdDotDot : FindData := ⟨"..", FILE_ATTRIBUTE_DIRECTORY, 0, 0⟩

/-- Write oracle that always succeeds and writes everything requested. -/
def wrOk : Nat → Nat → WriteResult := fun _ req => WriteResult.ok req

/-- Sample clean run: `.`, `..`, then `a.txt`; clean enumeration end and
full writes. -/
def envA : Env :=
  ⟨MkdirResult.ok, none, FindFirstResult.ok fdDot [fdDotDot, fdA],
    ERROR_NO_MORE_FILES, wrOk⟩

/-- Claim C2: no entry classified as a directory (including the
pseudo-entries `.` and `..`) contributes any bytes to the output file:
the loop treats any entry list exactly like its non-directory
sublist (same bytes, same stderr, same break, same write calls), and the
run's output is that of the non-directory sublist of the enumeration. -/
theorem directories_produce_no_output (env : Env) (f : FindData) (r : List FindData)
    (hmk : mkdirFatalB env.mkdir = false) (hcf : env.createFile = none)
    (hff : env.findFirst = FindFirstResult.ok f r) :
    (runMain env).output =
      (runLoop env.writeResults ((f :: r).filter (fun fd => !isDirB fd)) 0).out ∧
    ∀ (wr : Nat → Nat → WriteResult) (l : List FindData) (k : Nat),
      runLoop wr l k = runLoop wr (l.filter (fun fd => !isDirB fd)) k := by
  refine ⟨?_, fun wr l k => runLoop_filter wr l k⟩
  rw [runMain_eq_after env hmk]
  simp [runAfterMkdir, hcf, hff, ← runLoop_filter]

/-- Witness for C2 at a concrete run containing `.` and `..`. -/
theorem directories_produce_no_output_witness :
    ((runMain envA).output =
      (runLoop envA.writeResults
        ((fdDot :: [fdDotDot, fdA]).filter (fun fd => !isDirB fd)) 0).out ∧
    ∀ (wr : Nat → Nat → WriteResult) (l : List FindData) (k : Nat),
      runLoop wr l k = runLoop wr (l.filter (fun fd => !isDirB fd)) k) :=
  directories_produce_no_output envA fdDot [fdDotDot, fdA] rfl rfl rfl

/-- Claim C9: on every exit path, each of the two handles is closed
exactly once if it was acquired (`created` for `hFile`, `findOpened` for
`hFind`) and never closed if it was not; moreover the find handle is only
ever acquired after the file handle. -/
theorem handles_closed_once (env : Env) :
    (runMain env).fileCloses = (if (runMain env).created then 1 else 0) ∧
    (runMain env).findCloses = (if (runMain env).findOpened then 1 else 0) ∧
    ((runMain env).findOpened = true → (runMain env).created = true) := by
  obtain ⟨mk, cf, ff, pc, wr⟩ := env
  cases mk with
  | ok =>
    cases cf with
    | some c => simp [runMain, runAfterMkdir]
    | none =>
      cases ff with
      | err c => simp [runMain, runAfterMkdir]
      | ok f r => simp [runMain, runAfterMkdir]
  | err c =>
    by_cases hc : c = ERROR_ALREADY_EXISTS
    · cases cf with
      | some d => simp [runMain, runAfterMkdir, hc]
      | none =>
        cases ff with
        | err d => simp [runMain, runAfterMkdir, hc]
        | ok f r => simp [runMain, runAfterMkdir, hc]
    · simp [runMain, hc]

/-- Run in which `C:\tmp` already existed (`CreateDirectoryA` fails with
`ERROR_ALREADY_EXISTS`). -/
def envExists : Env :=
  ⟨MkdirResult.err ERROR_ALREADY_EXISTS, none,
    FindFirstResult.ok fdDot [fdDotDot, fdA], ERROR_NO_MORE_FILES, wrOk⟩

/-- Run in which `CreateDirectoryA` fails with code 5 (access denied). -/
def envMkdirFail : Env :=
  ⟨MkdirResult.err 5, none, FindFirstResult.ok fdDot [fdDotDot, fdA],
    ERROR_NO_MORE_FILES, wrOk⟩

/-- Run in which `FindFirstFileA` fails with code 5 after the output file
was created. -/
def envFindFail : Env :=
  ⟨MkdirResult.ok, none, FindFirstResult.err 5, ERROR_NO_MORE_FILES, wrOk⟩

/-- Claim C7: an already-existing destination directory is not an error —
the run proceeds exactly as if `CreateDirectoryA` had succeeded — while
any other `CreateDirectoryA` error is fatal: it is reported with its
error code and the program exits with status 1 before the output file is
opened (nothing created, no handle acquired, no success message). -/
theorem mkdir_already_exists_tolerated (env1 env2 : Env) (c : Nat)
    (h1 : env1.mkdir = MkdirResult.err ERROR_ALREADY_EXISTS)
    (h2 : env2.mkdir = MkdirResult.err c) (hc : c ≠ ERROR_ALREADY_EXISTS) :
    runMain env1 = runMain { env1 with mkdir := MkdirResult.ok } ∧
    (runMain env2).exitCode = 1 ∧ (runMain env2).created = false ∧
    (runMain env2).findOpened = false ∧
    (runMain env2).stderr = [ErrMsg.mkdirErr c] ∧
    (runMain env2).successMsg = false := by
  constructor
  · obtain ⟨mk1, cf1, ff1, pc1, wr1⟩ := env1
    simp only [Env.mkdir] at h1
    subst h1
    show runMain _ = runMain _
    simp only [runMain]
    rfl
  · obtain ⟨mk2, cf2, ff2, pc2, wr2⟩ := env2
    simp only [Env.mkdir] at h2
    subst h2
    simp [runMain, hc]

/-- Witness for C7: a run with the directory already present and a run
with an access-denied directory creation. -/
theorem mkdir_already_exists_tolerated_witness :
    (runMain envExists = runMain { envExists with mkdir := MkdirResult.ok } ∧
    (runMain envMkdirFail).exitCode = 1 ∧ (runMain envMkdirFail).created = false ∧
    (runMain envMkdirFail).findOpened = false ∧
    (runMain envMkdirFail).stderr = [ErrMsg.mkdirErr 5] ∧
    (runMain envMkdirFail).successMsg = false) :=
  mkdir_already_exists_tolerated envExists envMkdirFail 5 rfl rfl (by decide)

/-- Claim C8: the output file is created anew (truncated) by every run
that reaches a successful `CreateFileA`, never appended: the content
after a second run is exactly the second run's bytes, whatever the first
run and whatever was on disk before; and running the same run twice is
idempotent on the file. -/
theorem rerun_truncates (p q : Option String) (env1 env2 : Env)
    (h : (runMain env2).created = true) :
    fileAfterRun (fileAfterRun p env1) env2 = some ((runMain env2).output) ∧
    fileAfterRun (fileAfterRun q env1) env1 = fileAfterRun q env1 := by
  refine ⟨by simp [fileAfterRun, h], ?_⟩
  by_cases h1 : (runMain env1).created
  · simp [fileAfterRun, h1]
  · simp [fileAfterRun, h1]

/-- Witness for C8: a failed-setup first run followed by a clean run, and
the clean run repeated. -/
theorem rerun_truncates_witness :
    fileAfterRun (fileAfterRun (some "old") envMkdirFail) envA =
      some ((runMain envA).output) ∧
    fileAfterRun (fileAfterRun (some "old") envMkdirFail) envMkdirFail =
      fileAfterRun (some "old") envMkdirFail :=
  rerun_truncates (some "old") (some "old") envMkdirFail envA (by decide)

/-- Claim C10: when `FindFirstFileA` fails after the output file was
successfully opened, the run exits with status 1 and writes no lines, but
the output file has already been created and truncated, so any prior
content at the path is gone (the path now holds the empty content); the
file handle is still closed. -/
theorem find_failure_truncates_output (env : Env) (c : Nat)
    (hmk : mkdirFatalB env.mkdir = false) (hcf : env.createFile = none)
    (hff : env.findFirst = FindFirstResult.err c) :
    (runMain env).exitCode = 1 ∧ (runMain env).created = true ∧
    (runMain env).output = "" ∧
    (runMain env).stderr = [ErrMsg.findFirstErr c] ∧
    (runMain env).fileCloses = 1 ∧ (runMain env).successMsg = false ∧
    ∀ prior : Option String, fileAfterRun prior env = some "" := by
  have hr : runMain env =
      { exitCode := 1, created := true, output := "",
        stderr := [ErrMsg.findFirstErr c], successMsg := false,
        findOpened := false, fileCloses := 1, findCloses := 0 } := by
    rw [runMain_eq_after env hmk]
    simp [runAfterMkdir, hcf, hff]
  simp [hr, fileAfterRun]

/-- Witness for C10: enumeration start fails with code 5 over a run whose
setup succeeded. -/
theorem find_failure_truncates_output_witness :
    (runMain envFindFail).exitCode = 1 ∧ (runMain envFindFail).created = true ∧
    (runMain envFindFail).output = "" ∧
    (runMain envFindFail).stderr = [ErrMsg.findFirstErr 5] ∧
    (runMain envFindFail).fileCloses = 1 ∧ (runMain envFindFail).successMsg = false ∧
    ∀ prior : Option String, fileAfterRun prior envFindFail = some "" :=
  find_failure_truncates_output envFindFail 5 rfl rfl rfl

theorem afterMkdir_status (env : Env) (hmk : mkdirFatalB env.mkdir = false) :
    ((runAfterMkdir env).exitCode = 0 ↔ ¬ FatalCondition env) ∧
    ((runAfterMkdir env).successMsg = true ↔ (runAfterMkdir env).exitCode = 0) ∧
    ((runAfterMkdir env).exitCode = 0 ∨ (runAfterMkdir env).exitCode = 1) := by
  obtain ⟨mk, cf, ff, pc, wr⟩ := env
  simp only [Env.mkdir] at hmk
  cases cf with
  | some c =>
    simp [runAfterMkdir, FatalCondition]
  | none =>
    cases ff with
    | err c =>
      simp [runAfterMkdir, FatalCondition, findFailed]
    | ok f r =>
      cases hbrk : (runLoop wr (f :: r) 0).brk with
      | some c =>
        rcases eq_or_ne c ERROR_NO_MORE_FILES with h18 | h18
        · simp [runAfterMkdir, FatalCondition, findFailed, loopBrk, hbrk, hmk,
            postErrorCode, h18]
        · simp [runAfterMkdir, FatalCondition, findFailed, loopBrk, hbrk, hmk,
            postErrorCode, h18]
      | none =>
        rcases eq_or_ne pc ERROR_NO_MORE_FILES with h18 | h18
        · simp [runAfterMkdir, FatalCondition, findFailed, loopBrk, hbrk, hmk,
            postErrorCode, h18]
        · simp [runAfterMkdir, FatalCondition, findFailed, loopBrk, hbrk, hmk,
            postErrorCode, h18]

/-- Claim C3: the exit status is 0 exactly when none of the fatal
conditions occurred (directory preparation failure, output-file creation
failure, enumeration-start failure, a hard write failure, or a
post-enumeration error code other than the no-more-entries signal),
otherwise it is 1; and the success message is printed exactly when the
exit status is 0. -/
theorem exit_status_iff_no_fatal (env : Env) :
    ((runMain env).exitCode = 0 ↔ ¬ FatalCondition env) ∧
    ((runMain env).successMsg = true ↔ (runMain env).exitCode = 0) ∧
    ((runMain env).exitCode = 0 ∨ (runMain env).exitCode = 1) := by
  by_cases hmk : mkdirFatalB env.mkdir = true
  · obtain ⟨mk, cf, ff, pc, wr⟩ := env
    simp only [Env.mkdir] at hmk
    cases mk with
    | ok => simp [mkdirFatalB] at hmk
    | err c =>
      have hc : c ≠ ERROR_ALREADY_EXISTS := by simpa [mkdirFatalB] using hmk
      simp [runMain, hc, FatalCondition, mkdirFatalB]
  · have hmk2 : mkdirFatalB env.mkdir = false := by simpa using hmk
    rw [runMain_eq_after env hmk2]
    exact afterMkdir_status env hmk2

theorem takeBytes_length (s : String) : takeBytes s s.length = s := by
  cases s
  simp [takeBytes]

theorem runLoop_all_ok (wr : Nat → Nat → WriteResult)
    (hw : ∀ k req, wr k req = WriteResult.ok req) (l : List FindData) (k : Nat)
    (hfit : ∀ fd ∈ l, isDirB fd = false →
      (formatLine fd.cFileName (fileSize fd)).length < BUFFER_SIZE) :
    (runLoop wr l k).out = specOutput l ∧ (runLoop wr l k).brk = none := by
  induction l generalizing k with
  | nil => exact ⟨rfl, rfl⟩
  | cons fd rest ih =>
    have hfitr : ∀ fd ∈ rest, isDirB fd = false →
        (formatLine fd.cFileName (fileSize fd)).length < BUFFER_SIZE :=
      fun fd hm => hfit fd (List.mem_cons_of_mem _ hm)
    cases h : isDirB fd with
    | true =>
      rw [runLoop_cons_dir wr fd rest k h]
      have := ih k hfitr
      simpa [specOutput, h] using this
    | false =>
      have hf := hfit fd (List.mem_cons_self fd rest) h
      obtain ⟨iho, ihb⟩ := ih (k + 1) hfitr
      rw [runLoop_cons_ok wr fd rest k
        (formatLine fd.cFileName (fileSize fd)).length h hf
        (hw k (formatLine fd.cFileName (fileSize fd)).length)]
      refine ⟨?_, ihb⟩
      simp [specOutput, h, takeBytes_length, iho]

/-- Claim C1 (amended): when setup succeeds, every write reports the full
requested byte count, and every non-directory entry's formatted line fits
the 512-byte buffer, the output file holds exactly one line
`"<name>\t<size>\r\n"` per non-directory entry of the enumeration, in
enumeration order, with the size the 64-bit value `(high << 32) | low`
rendered in unsigned decimal (the content of `specOutput`). -/
theorem output_lines_amended (env : Env) (f : FindData) (r : List FindData)
    (hmk : mkdirFatalB env.mkdir = false) (hcf : env.createFile = none)
    (hff : env.findFirst = FindFirstResult.ok f r)
    (hw : ∀ k req, env.writeResults k req = WriteResult.ok req)
    (hfit : ∀ fd ∈ f :: r, isDirB fd = false →
      (formatLine fd.cFileName (fileSize fd)).length < BUFFER_SIZE) :
    (runMain env).output = specOutput (entriesOf env.findFirst) := by
  rw [runMain_eq_after env hmk]
  have h := runLoop_all_ok env.writeResults hw (f :: r) 0 hfit
  simp [runAfterMkdir, hcf, hff, entriesOf, h.1]

/-- Witness for C1 (amended) at the sample clean run over `.`, `..` and
`a.txt`. -/
theorem output_lines_amended_witness :
    (runMain envA).output = specOutput (entriesOf envA.findFirst) :=
  output_lines_amended envA fdDot [fdDotDot, fdA] rfl rfl rfl
    (fun _ _ => rfl) (by decide)

/-- Non-directory entry whose 511-byte name makes the formatted line
overflow the 512-byte buffer (511 + tab + one digit + CRLF = 515). -/
def fdBig : FindData := ⟨String.mk (List.replicate 511 'a'), 0, 0, 0⟩

/-- Run refuting C1 as stated: setup succeeds and no fatal condition
occurs, yet `fdBig` is skipped by the formatter and the `WriteFile` for
`a.txt` reports only 3 of the 9 requested bytes written. -/
def envCx : Env :=
  ⟨MkdirResult.ok, none, FindFirstResult.ok fdBig [fdA], ERROR_NO_MORE_FILES,
    fun _ _ => WriteResult.ok 3⟩

set_option maxRecDepth 200000 in
/-- Counterexample to claim C1 as stated: in `envCx` setup succeeds and no
fatal error occurs (the run exits with status 0 and prints the success
message), both yielded entries are non-directories, yet the output file
does not hold one line per non-directory entry: `fdBig`'s line is missing
entirely (formatting overflow is non-fatal) and `a.txt`'s line is cut to
`"a.t"` by the short write (also non-fatal). -/
theorem output_lines_counterexample :
    isDirB fdBig = false ∧ isDirB fdA = false ∧
    (runMain envCx).exitCode = 0 ∧ (runMain envCx).successMsg = true ∧
    (runMain envCx).output = "a.t" ∧
    specOutput (entriesOf envCx.findFirst) ≠ "a.t" := by decide

theorem runLoop_append (wr : Nat → Nat → WriteResult) (l1 l2 : List FindData)
    (k : Nat) (h : (runLoop wr l1 k).brk = none) :
    runLoop wr (l1 ++ l2) k =
      ⟨(runLoop wr l1 k).out ++ (runLoop wr l2 (k + (runLoop wr l1 k).wn)).out,
       (runLoop wr l1 k).errs ++ (runLoop wr l2 (k + (runLoop wr l1 k).wn)).errs,
       (runLoop wr l2 (k + (runLoop wr l1 k).wn)).brk,
       (runLoop wr l1 k).wn + (runLoop wr l2 (k + (runLoop wr l1 k).wn)).wn⟩ := by
  induction l1 generalizing k with
  | nil => simp [runLoop_nil]
  | cons fd rest ih =>
    cases hd : isDirB fd with
    | true =>
      rw [runLoop_cons_dir wr fd rest k hd] at h
      rw [List.cons_append, runLoop_cons_dir wr fd (rest ++ l2) k hd,
        runLoop_cons_dir wr fd rest k hd]
      exact ih k h
    | false =>
      by_cases hbig : BUFFER_SIZE ≤ (formatLine fd.cFileName (fileSize fd)).length
      · rw [runLoop_cons_big wr fd rest k hd hbig] at h
        simp only at h
        rw [List.cons_append, runLoop_cons_big wr fd (rest ++ l2) k hd hbig,
          runLoop_cons_big wr fd rest k hd hbig, ih k h]
        simp
      · have hfit := Nat.not_le.mp hbig
        cases hwk : wr k (formatLine fd.cFileName (fileSize fd)).length with
        | err c =>
          rw [runLoop_cons_err wr fd rest k c hd hfit hwk] at h
          simp at h
        | ok n =>
          rw [runLoop_cons_ok wr fd rest k n hd hfit hwk] at h
          simp only at h
          rw [List.cons_append, runLoop_cons_ok wr fd (rest ++ l2) k n hd hfit hwk,
            runLoop_cons_ok wr fd rest k n hd hfit hwk, ih (k + 1) h]
          have hidx : k + ((runLoop wr rest (k + 1)).wn + 1) =
              k + 1 + (runLoop wr rest (k + 1)).wn := by omega
          simp only [LoopOut.mk.injEq, hidx]
          exact ⟨by rw [String.append_assoc], by rw [List.append_assoc], trivial, by omega⟩

/-- Claim C4: an OS-level `WriteFile` failure is fatal for the run: the
error is reported on stderr, the loop stops at the failing entry (the
whole observable result is independent of the entries after it), cleanup
still closes both handles, the exit status is 1 with no success message,
and the lines already written before the failure remain the output file's
content — no rollback. -/
theorem write_failure_fatal (env : Env) (f fd : FindData)
    (r l1 l2 : List FindData) (c : Nat)
    (hmk : mkdirFatalB env.mkdir = false) (hcf : env.createFile = none)
    (hff : env.findFirst = FindFirstResult.ok f r)
    (hsplit : f :: r = l1 ++ fd :: l2)
    (hpre : (runLoop env.writeResults l1 0).brk = none)
    (hdir : isDirB fd = false)
    (hfit : (formatLine fd.cFileName (fileSize fd)).length < BUFFER_SIZE)
    (hw : env.writeResults (0 + (runLoop env.writeResults l1 0).wn)
      (formatLine fd.cFileName (fileSize fd)).length = WriteResult.err c) :
    (runMain env).exitCode = 1 ∧ (runMain env).successMsg = false ∧
    (runMain env).output = (runLoop env.writeResults l1 0).out ∧
    ErrMsg.writeErr c ∈ (runMain env).stderr ∧
    (runMain env).fileCloses = 1 ∧ (runMain env).findCloses = 1 := by
  have hloop : runLoop env.writeResults (f :: r) 0 =
      ⟨(runLoop env.writeResults l1 0).out,
       (runLoop env.writeResults l1 0).errs ++ [ErrMsg.writeErr c],
       some c, (runLoop env.writeResults l1 0).wn + 1⟩ := by
    rw [hsplit, runLoop_append env.writeResults l1 (fd :: l2) 0 hpre,
      runLoop_cons_err env.writeResults fd l2
        (0 + (runLoop env.writeResults l1 0).wn) c hdir hfit hw]
    simp
  rw [runMain_eq_after env hmk]
  rcases eq_or_ne c ERROR_NO_MORE_FILES with h18 | h18
  · simp [runAfterMkdir, hcf, hff, hloop, h18, List.mem_append]
  · simp [runAfterMkdir, hcf, hff, hloop, h18, List.mem_append]

/-- Run in which the single `WriteFile` call fails with code 112 (disk
full). -/
def envWriteFail : Env :=
  ⟨MkdirResult.ok, none, FindFirstResult.ok fdDot [fdA, fdDotDot],
    ERROR_NO_MORE_FILES, fun _ _ => WriteResult.err 112⟩

/-- Witness for C4: the write for `a.txt` fails with code 112; the
trailing `..` entry is never processed. -/
theorem write_failure_fatal_witness :
    (runMain envWriteFail).exitCode = 1 ∧
    (runMain envWriteFail).successMsg = false ∧
    (runMain envWriteFail).output = (runLoop envWriteFail.writeResults [fdDot] 0).out ∧
    ErrMsg.writeErr 112 ∈ (runMain envWriteFail).stderr ∧
    (runMain envWriteFail).fileCloses = 1 ∧
    (runMain envWriteFail).findCloses = 1 :=
  write_failure_fatal envWriteFail fdDot fdA [fdA, fdDotDot] [fdDot] [fdDotDot] 112
    rfl rfl rfl rfl (by decide) (by decide) (by decide) (by decide)

theorem noFatal_exit0 (env : Env) (h : ¬ FatalCondition env) :
    (runMain env).exitCode = 0 := by
  have hmk : mkdirFatalB env.mkdir = false := by
    by_contra hh
    exact h (Or.inl (by simpa using hh))
  rw [runMain_eq_after env hmk]
  exact (afterMkdir_status env hmk).1.mpr h

/-- Claim C5: an entry whose formatted line does not fit the 512-byte
buffer is skipped by itself: it contributes no bytes to the output, one
stderr error naming it, and the loop continues with the remaining entries
at the same write-call position and with the same break state; a
formatting overflow is never among the fatal conditions, so a run with no
fatal condition still exits 0. -/
theorem format_overflow_local (wr : Nat → Nat → WriteResult) (fd : FindData)
    (rest : List FindData) (k : Nat) (hdir : isDirB fd = false)
    (hbig : BUFFER_SIZE ≤ (formatLine fd.cFileName (fileSize fd)).length) :
    ((runLoop wr (fd :: rest) k).out = (runLoop wr rest k).out ∧
     (runLoop wr (fd :: rest) k).errs =
       ErrMsg.formatErr fd.cFileName :: (runLoop wr rest k).errs ∧
     (runLoop wr (fd :: rest) k).brk = (runLoop wr rest k).brk ∧
     (runLoop wr (fd :: rest) k).wn = (runLoop wr rest k).wn) ∧
    ∀ env : Env, ¬ FatalCondition env → (runMain env).exitCode = 0 := by
  rw [runLoop_cons_big wr fd rest k hdir hbig]
  exact ⟨⟨rfl, rfl, rfl, rfl⟩, noFatal_exit0⟩

set_option maxRecDepth 200000 in
/-- Witness for C5: the 511-byte-name entry `fdBig` ahead of `a.txt`. -/
theorem format_overflow_local_witness :
    (((runLoop wrOk (fdBig :: [fdA]) 0).out = (runLoop wrOk [fdA] 0).out ∧
     (runLoop wrOk (fdBig :: [fdA]) 0).errs =
       ErrMsg.formatErr fdBig.cFileName :: (runLoop wrOk [fdA] 0).errs ∧
     (runLoop wrOk (fdBig :: [fdA]) 0).brk = (runLoop wrOk [fdA] 0).brk ∧
     (runLoop wrOk (fdBig :: [fdA]) 0).wn = (runLoop wrOk [fdA] 0).wn) ∧
    ∀ env : Env, ¬ FatalCondition env → (runMain env).exitCode = 0) :=
  format_overflow_local wrOk fdBig [fdA] 0 (by decide) (by decide)

/-- Write oracle that always reports 3 bytes written. -/
def wr3 : Nat → Nat → WriteResult := fun _ _ => WriteResult.ok 3

/-- Claim C6: a `WriteFile` success that reports fewer bytes written than
requested is non-fatal: the truncated bytes are kept, one warning naming
the entry is issued, the loop continues with the next entry at the next
write-call index (exactly one write call for this entry — no retry), the
break state is that of the remaining entries, and a run over `fd :: rest`
that is otherwise clean still exits with status 0. -/
theorem short_write_nonfatal (wr : Nat → Nat → WriteResult) (fd : FindData)
    (rest : List FindData) (k n : Nat) (hdir : isDirB fd = false)
    (hfit : (formatLine fd.cFileName (fileSize fd)).length < BUFFER_SIZE)
    (hok : wr k (formatLine fd.cFileName (fileSize fd)).length = WriteResult.ok n)
    (hne : n ≠ (formatLine fd.cFileName (fileSize fd)).length) :
    ((runLoop wr (fd :: rest) k).out =
      takeBytes (formatLine fd.cFileName (fileSize fd)) n ++
        (runLoop wr rest (k + 1)).out ∧
    (runLoop wr (fd :: rest) k).errs =
      ErrMsg.shortWriteWarn fd.cFileName :: (runLoop wr rest (k + 1)).errs ∧
    (runLoop wr (fd :: rest) k).brk = (runLoop wr rest (k + 1)).brk ∧
    (runLoop wr (fd :: rest) k).wn = (runLoop wr rest (k + 1)).wn + 1) ∧
    ∀ env : Env, mkdirFatalB env.mkdir = false → env.createFile = none →
      env.findFirst = FindFirstResult.ok fd rest → env.writeResults = wr →
      env.postCode = ERROR_NO_MORE_FILES → k = 0 →
      (runLoop wr rest (k + 1)).brk = none →
      (runMain env).exitCode = 0 := by
  have hstep := runLoop_cons_ok wr fd rest k n hdir hfit hok
  constructor
  · rw [hstep]
    simp [hne]
  · intro env hmk hcf hff hwr hpc hk hbrk
    subst hk
    rw [runMain_eq_after env hmk]
    have hb : (runLoop env.writeResults (fd :: rest) 0).brk = none := by
      rw [hwr, hstep]
      exact hbrk
    simp [runAfterMkdir, hcf, hff, hwr, hb, hpc,
      show (runLoop wr (fd :: rest) 0).brk = none from by rw [hstep]; exact hbrk]

/-- Witness for C6: the write for `a.txt` (9 bytes requested) reports
only 3 bytes written. -/
theorem short_write_nonfatal_witness :
    (((runLoop wr3 (fdA :: []) 0).out =
      takeBytes (formatLine fdA.cFileName (fileSize fdA)) 3 ++
        (runLoop wr3 [] (0 + 1)).out ∧
    (runLoop wr3 (fdA :: []) 0).errs =
      ErrMsg.shortWriteWarn fdA.cFileName :: (runLoop wr3 [] (0 + 1)).errs ∧
    (runLoop wr3 (fdA :: []) 0).brk = (runLoop wr3 [] (0 + 1)).brk ∧
    (runLoop wr3 (fdA :: []) 0).wn = (runLoop wr3 [] (0 + 1)).wn + 1) ∧
    ∀ env : Env, mkdirFatalB env.mkdir = false → env.createFile = none →
      env.findFirst = FindFirstResult.ok fdA [] → env.writeResults = wr3 →
      env.postCode = ERROR_NO_MORE_FILES → 0 = 0 →
      (runLoop wr3 [] (0 + 1)).brk = none →
      (runMain env).exitCode = 0) :=
  short_write_nonfatal wr3 fdA [] 0 3 (by decide) (by decide) rfl (by decide)

/-- Witness for C3 at the sample clean run. -/
theorem exit_status_iff_no_fatal_witness :
    (((runMain envA).exitCode = 0 ↔ ¬ FatalCondition envA) ∧
    ((runMain envA).successMsg = true ↔ (runMain envA).exitCode = 0) ∧
    ((runMain envA).exitCode = 0 ∨ (runMain envA).exitCode = 1)) :=
  exit_status_iff_no_fatal envA

/-- Witness for C9 at the sample clean run. -/
theorem handles_closed_once_witness :
    ((runMain envA).fileCloses = (if (runMain envA).created then 1 else 0) ∧
    (runMain envA).findCloses = (if (runMain envA).findOpened then 1 else 0) ∧
    ((runMain envA).findOpened = true → (runMain envA).created = true)) :=
  handles_closed_once envA
